import Mathlib

/-!
Shallow embedding of the FalkorDB-lite embedded process supervisor
(`src/server-manager.ts`, here `ServerManager`) and the crash-safety
registry (`src/cleanup.ts`).  Machine-level effects (the file system, the
child process, socket probes) are made explicit: the file system is a list
of existing paths, the child process is a record of pid / recorded exit
code / recorded signal, and the environment (when the child exits, what a
socket probe returns) is an oracle supplied to each operation.  Every
operation returns, besides its updated world, a trace of the externally
visible actions it performed, in order.
-/

namespace FalkorDBLite

/-- Outcome carried by a child's `exit` event: Node delivers `(code, signal)`
where exactly one of the two is non-null. -/
inductive ExitOutcome where
  | code (c : Int)
  | signal (s : String)
deriving DecidableEq, Repr

/-- The child process handle (`ChildProcess`): `pid` is assigned on a
successful spawn (undefined when spawning failed), `exitCode` is the
recorded exit code (null while running and also null when the child was
terminated by a signal), `signalCode` the recorded terminating signal. -/
structure ChildProc where
  pid : Option Nat := none
  exitCode : Option Int := none
  signalCode : Option String := none
deriving DecidableEq, Repr

/-- Whether the one-shot `exit` event of this child has already fired
(Node fires it once, with either a code or a signal recorded). -/
def ChildProc.exitEventFired (p : ChildProc) : Bool :=
  p.exitCode.isSome || p.signalCode.isSome

/-- Record the payload of the `exit` event on the handle. -/
def ChildProc.applyExit (p : ChildProc) : ExitOutcome → ChildProc
  | ExitOutcome.code c => { p with exitCode := some c }
  | ExitOutcome.signal s => { p with signalCode := some s }

/-- `ServerManagerOptions` from `server-manager.ts`. -/
structure ServerManagerOptions where
  redisServerPath : String
  config : String
  socketPath : String
  configPath : Option String := none
  startupTimeoutMs : Option Nat := none
  pollIntervalMs : Option Nat := none
  inheritStdio : Bool := false
deriving DecidableEq, Repr

/-- The mutable instance fields of a `ServerManager`. -/
structure SMState where
  options : ServerManagerOptions
  process : Option ChildProc := none
  configFilePath : Option String := none
  ownsConfigFile : Bool := false
deriving DecidableEq, Repr

/-- The world a supervisor acts on: its own fields, the set of existing
files (as a list of paths), and whether this supervisor is currently a
member of the crash-safety registry's `activeServers` set. -/
structure World where
  sm : SMState
  files : List String
  registered : Bool
deriving DecidableEq, Repr

/-- Signals used by the shutdown escalation ladder. -/
inductive Sig where
  | SIGTERM
  | SIGKILL
deriving DecidableEq, Repr

/-- Externally visible actions, in the order the supervisor performs them. -/
inductive Action where
  | unlinkFile (path : String)
  | writeFile (path : String) (content : String)
  | spawn (exe : String) (arg : String)
  | sendShutdown (save : Bool)
  | waitForExit (timeoutMs : Nat)
  | kill (s : Sig)
  | registerServer
  | unregisterServer
deriving DecidableEq, Repr

/-- `fs.unlink`: removes the file, or fails with `ENOENT` when absent. -/
def unlinkModel (files : List String) (p : String) : Except String (List String) :=
  if p ∈ files then Except.ok (files.filter (fun q => q != p)) else Except.error ("ENOENT")

/-- The unlink attempts `cleanupFiles` makes, in order: the config file
when set and owned by this supervisor, then always the socket path. -/
def cleanupActions (st : SMState) : List Action :=
  (match st.configFilePath with
   | some cfp => if st.ownsConfigFile then [Action.unlinkFile cfp] else []
   | none => []) ++ [Action.unlinkFile st.options.socketPath]

/-- `ServerManager.cleanupFiles`: best-effort deletion of the owned config
file and the socket file; each `unlink` failure is caught and ignored. -/
def cleanupFilesModel (w : World) : World × List Action :=
  let files1 :=
    match w.sm.configFilePath with
    | some cfp =>
      if w.sm.ownsConfigFile then
        match unlinkModel w.files cfp with
        | Except.ok fs => fs
        | Except.error _ => w.files
      else w.files
    | none => w.files
  let files2 :=
    match unlinkModel files1 w.sm.options.socketPath with
    | Except.ok fs => fs
    | Except.error _ => files1
  ({ w with files := files2 }, cleanupActions w.sm)

/-- Oracle for one `stop` call: the socket `SHUTDOWN` round trip's result
(the code discards it either way), and for each of the three bounded
waits, the `exit`-event payload delivered during that wait, if any. -/
structure StopEnv where
  shutdownResult : Except String String
  wait1 : Option ExitOutcome
  wait2 : Option ExitOutcome
  wait3 : Option ExitOutcome
deriving Repr

/-- `ServerManager.waitForExit`: resolves `true` at once when no process
exists or an exit code is already recorded; otherwise it listens for the
one-shot `exit` event, so if that event has already fired (signal kill)
the wait can only time out; otherwise the oracle decides whether the
event arrives within the timeout. -/
def waitForExitModel (st : SMState) (ev : Option ExitOutcome) : Bool × SMState :=
  match st.process with
  | none => (true, st)
  | some p =>
    if p.exitCode.isSome then (true, st)
    else if p.exitEventFired then (false, st)
    else
      match ev with
      | some o => (true, { st with process := some (p.applyExit o) })
      | none => (false, st)

/-- Result of a `stop` call: the updated world, the action trace, and the
promise outcome (`ok` = resolved, `error` = rejected). -/
structure StopResult where
  world : World
  trace : List Action
  result : Except String Unit
deriving Repr

/-- `ServerManager.stop(save)`.  Early-returns (after best-effort cleanup
and unregistration) when no process exists or an exit code is recorded;
otherwise sends `SHUTDOWN SAVE|NOSAVE` inside try/catch (the result is
discarded either way), then runs the escalation ladder: wait 5000 ms,
if still alive `SIGTERM` and wait 3000 ms, if still alive `SIGKILL` and
wait 2000 ms; finally cleans up files and unregisters. -/
def stopModel (w : World) (env : StopEnv) (save : Bool) : StopResult :=
  if w.sm.process.isNone || (w.sm.process.bind ChildProc.exitCode).isSome then
    let cw := cleanupFilesModel w
    { world := { cw.1 with registered := false },
      trace := cw.2 ++ [Action.unregisterServer],
      result := Except.ok () }
  else
    -- try \x7b await sendCommand(SHUTDOWN, ...) \x7d catch \x7b\x7d : both outcomes ignored
    let _ignored : Unit :=
      match env.shutdownResult with
      | Except.ok _ => ()
      | Except.error _ => ()
    let w1 := waitForExitModel w.sm env.wait1
    let ladder :=
      if w1.1 then (w1.2, [Action.waitForExit 5000])
      else
        let w2 := waitForExitModel w1.2 env.wait2
        if w2.1 then
          (w2.2, [Action.waitForExit 5000, Action.kill Sig.SIGTERM, Action.waitForExit 3000])
        else
          let w3 := waitForExitModel w2.2 env.wait3
          (w3.2, [Action.waitForExit 5000, Action.kill Sig.SIGTERM, Action.waitForExit 3000,
                  Action.kill Sig.SIGKILL, Action.waitForExit 2000])
    let cw := cleanupFilesModel { w with sm := ladder.1 }
    { world := { cw.1 with registered := false },
      trace := Action.sendShutdown save :: ladder.2 ++ cw.2 ++ [Action.unregisterServer],
      result := Except.ok () }

/-- `ServerManager.isRunning`: a process handle exists and no exit code is
recorded.  A pure field read; no socket I/O. -/
def isRunningModel (st : SMState) : Bool :=
  st.process.isSome && (st.process.bind ChildProc.exitCode).isNone

/-- `ServerManager.getPid`: optional chaining `this.process?.pid`. -/
def getPidModel (st : SMState) : Option Nat :=
  st.process.bind ChildProc.pid

/-! ### Readiness polling (`ping` / `waitForReady`) -/

/-- What one probe connection observes: a connection error, a single data
event with the given payload, or no data until the 1000 ms socket timeout. -/
inductive ProbeResult where
  | connError (msg : String)
  | response (s : String)
  | silent
deriving DecidableEq, Repr

/-- The positive acknowledgement token the health check looks for. -/
def pongToken : String := "+PONG"

/-- JavaScript `haystack.includes(needle)`: contiguous-substring test. -/
def stringIncludes (needle hay : String) : Bool :=
  decide (needle.toList.IsInfix hay.toList)

/-- `ServerManager.ping`: resolves when the data payload contains the
token (`response.includes` in the source); a connection error rejects
with that error; any other payload leaves the promise unsettled until the
socket timeout rejects it. -/
def pingModel : ProbeResult → Except String Unit
  | ProbeResult.connError m => Except.error m
  | ProbeResult.response s =>
    if stringIncludes pongToken s then Except.ok ()
    else Except.error ("PING timed out")
  | ProbeResult.silent => Except.error ("PING timed out")

/-- The distinguishable failure causes of `start`, each carrying the data
its `Error` message is built from. -/
inductive StartError where
  | failedToSpawn (m : String)
  | exitedBeforeReady (c : Int) (stderr : String)
  | killedBySignal (s : String)
  | notReadyWithinTimeout (timeoutMs : Nat)
deriving DecidableEq, Repr

/-- The exact `Error` message text each failure cause produces. -/
def StartError.message : StartError → String
  | StartError.failedToSpawn m => "Failed to spawn redis-server: " ++ m
  | StartError.exitedBeforeReady c stderr =>
    "redis-server exited with code " ++ toString c ++
      " before becoming ready.\nstderr: " ++ stderr
  | StartError.killedBySignal s =>
    "redis-server was killed by signal " ++ s ++ " before becoming ready."
  | StartError.notReadyWithinTimeout t =>
    "redis-server did not become ready within " ++ toString t ++ "ms"

/-- Outcome of the readiness poller, with the index of the attempt at
which it settled (attempt `n` runs at model time `n * pollMs`). -/
inductive ReadyResult where
  | ready (n : Nat)
  | timedOut (n : Nat)
deriving DecidableEq, Repr

/-- `ServerManager.waitForReady`: at each attempt, first fail if the
deadline has passed, otherwise ping; a successful ping resolves, a failed
ping schedules the next attempt after `pollMs`.  Requires a positive poll
interval (with interval 0 the model's clock would never advance). -/
def waitForReadyAux (timeoutMs pollMs : Nat) (probes : Nat → ProbeResult)
    (hp : 0 < pollMs) (n : Nat) : ReadyResult :=
  if n * pollMs > timeoutMs then ReadyResult.timedOut n
  else
    match pingModel (probes n) with
    | Except.ok _ => ReadyResult.ready n
    | Except.error _ => waitForReadyAux timeoutMs pollMs probes hp (n + 1)
termination_by timeoutMs + pollMs - n * pollMs
decreasing_by
  simp only [Nat.succ_mul]
  omega

/-! ### `start` -/

/-- The one event the child delivers during startup, if any: a spawn
`error` event, or the one-shot `exit` event with `(code, signal)`. -/
inductive ChildEvent where
  | spawnError (msg : String)
  | exited (code : Option Int) (signal : Option String)
deriving DecidableEq, Repr

/-- The early-exit watcher's handler for the `exit` event: rejects with
the exit error on a non-zero code, else with the signal error when a
signal is present, else does nothing (a clean code-0 exit never rejects). -/
def earlyExitReject (stderr : String) (code : Option Int) (signal : Option String) :
    Option StartError :=
  match code with
  | some c =>
    if c != 0 then some (StartError.exitedBeforeReady c stderr)
    else if signal.isSome then some (StartError.killedBySignal (signal.getD "")) else none
  | none =>
    match signal with
    | some s => some (StartError.killedBySignal s)
    | none => none

/-- Oracle for one `start` call: the temp dir `mkdtemp` yields, the pid
`spawn` assigns, the child's event (with the model time at which it
fires), the stderr captured by then, and each poll attempt's outcome. -/
structure StartEnv where
  tmpDir : String
  pid : Option Nat
  childEvent : Option (Nat × ChildEvent)
  stderr : String
  probes : Nat → ProbeResult

/-- Result of a `start` call. -/
structure StartResult where
  world : World
  trace : List Action
  result : Except StartError Unit
deriving Repr

/-- `this.options.startupTimeoutMs ?? 10_000`. -/
def startTimeoutMs (opts : ServerManagerOptions) : Nat :=
  opts.startupTimeoutMs.getD 10000

/-- `this.options.pollIntervalMs ?? 100`. -/
def startPollMs (opts : ServerManagerOptions) : Nat :=
  opts.pollIntervalMs.getD 100

/-- The path `start` writes the config to: the caller-supplied
`configPath`, else `redis.conf` inside the fresh `mkdtemp` directory. -/
def startConfigPath (opts : ServerManagerOptions) (tmpDir : String) : String :=
  match opts.configPath with
  | some p => p
  | none => tmpDir ++ "/redis.conf"

/-- Attempt index at which the poller settled. -/
def ReadyResult.attempt : ReadyResult → Nat
  | ReadyResult.ready n => n
  | ReadyResult.timedOut n => n

/-- The readiness poller's outcome for this `start` call. -/
def readyResultOf (opts : ServerManagerOptions) (envS : StartEnv)
    (hp : 0 < startPollMs opts) : ReadyResult :=
  waitForReadyAux (startTimeoutMs opts) (startPollMs opts) envS.probes hp 0

/-- The promise value the readiness poller settles with. -/
def readyOutcomeOf (opts : ServerManagerOptions) (envS : StartEnv)
    (hp : 0 < startPollMs opts) : Except StartError Unit :=
  match readyResultOf opts envS hp with
  | ReadyResult.ready _ => Except.ok ()
  | ReadyResult.timedOut _ =>
    Except.error (StartError.notReadyWithinTimeout (startTimeoutMs opts))

/-- When (in model time) and with which error the early-exit watcher
rejects, if ever. -/
def earlyExitSettle (envS : StartEnv) : Option (Nat × StartError) :=
  match envS.childEvent with
  | none => none
  | some (t, ChildEvent.spawnError m) => some (t, StartError.failedToSpawn m)
  | some (t, ChildEvent.exited c s) =>
    match earlyExitReject envS.stderr c s with
    | some e => some (t, e)
    | none => none

/-- `Promise.race([ready, earlyExit])`: first to settle wins (the poller
wins ties at equal model time). -/
def raceResultOf (opts : ServerManagerOptions) (envS : StartEnv)
    (hp : 0 < startPollMs opts) : Except StartError Unit :=
  match earlyExitSettle envS with
  | none => readyOutcomeOf opts envS hp
  | some (te, e) =>
    if (readyResultOf opts envS hp).attempt * startPollMs opts ≤ te then
      readyOutcomeOf opts envS hp
    else Except.error e

/-- Model time at which the race settles. -/
def raceSettleTime (opts : ServerManagerOptions) (envS : StartEnv)
    (hp : 0 < startPollMs opts) : Nat :=
  match earlyExitSettle envS with
  | none => (readyResultOf opts envS hp).attempt * startPollMs opts
  | some (te, _) => min ((readyResultOf opts envS hp).attempt * startPollMs opts) te

/-- The process handle as `start` observes it once the race settled: the
exit event's payload is recorded on the handle if the event fired by
then. -/
def procAtSettle (envS : StartEnv) (stime : Nat) : ChildProc :=
  match envS.childEvent with
  | some (t, ChildEvent.exited c s) =>
    if t ≤ stime then { pid := envS.pid, exitCode := c, signalCode := s }
    else { pid := envS.pid }
  | _ => { pid := envS.pid }

/-- `ServerManager.start`: unlink a stale socket file if present, write
the config file (caller-supplied path, else a fresh temp file the
supervisor owns), spawn the child, then race the early-exit watcher
against the readiness poller.  On failure: force-kill the child if it is
still alive, best-effort cleanup of config and socket files, and the
originating error is rethrown.  On success: the server has bound the
socket, and the supervisor registers with the crash-safety registry.
(When the two branches would settle at the same model time, the poller
is taken to win.) -/
def startModel (w : World) (env : StartEnv)
    (hp : 0 < startPollMs w.sm.options) : StartResult :=
  let opts := w.sm.options
  let preTrace := if opts.socketPath ∈ w.files then [Action.unlinkFile opts.socketPath] else []
  let files0 :=
    if opts.socketPath ∈ w.files then w.files.filter (fun q => q != opts.socketPath)
    else w.files
  let cfp := startConfigPath opts env.tmpDir
  let owns := opts.configPath.isNone
  let files1 := if cfp ∈ files0 then files0 else cfp :: files0
  let trace1 := preTrace ++ [Action.writeFile cfp opts.config, Action.spawn opts.redisServerPath cfp]
  let st2 : SMState :=
    { w.sm with process := some (procAtSettle env (raceSettleTime opts env hp)),
                configFilePath := some cfp, ownsConfigFile := owns }
  match raceResultOf opts env hp with
  | Except.error e =>
    let killTrace := if isRunningModel st2 then [Action.kill Sig.SIGKILL] else []
    let cw := cleanupFilesModel { w with sm := st2, files := files1 }
    { world := cw.1, trace := trace1 ++ killTrace ++ cw.2, result := Except.error e }
  | Except.ok _ =>
    let files2 := if opts.socketPath ∈ files1 then files1 else opts.socketPath :: files1
    { world := { sm := st2, files := files2, registered := true },
      trace := trace1 ++ [Action.registerServer],
      result := Except.ok () }

/-! ### Crash-safety registry (`cleanup.ts`) -/

/-- The registry's module-level state: the `activeServers` set (as a
deduplicated list), the `handlersRegistered` guard, and a count of how
many times the global handler block was actually installed. -/
structure RegistryState where
  activeServers : List Nat
  handlersRegistered : Bool
  installCount : Nat
deriving DecidableEq, Repr

/-- The module's initial state. -/
def initialRegistry : RegistryState :=
  { activeServers := [], handlersRegistered := false, installCount := 0 }

/-- `ensureHandlers`: returns immediately when the guard is set;
otherwise sets it and installs the global handler block once. -/
def ensureHandlersModel (r : RegistryState) : RegistryState :=
  if r.handlersRegistered then r
  else { r with handlersRegistered := true, installCount := r.installCount + 1 }

/-- `registerServer`: add to the `activeServers` set, then `ensureHandlers`. -/
def registerServerModel (r : RegistryState) (id : Nat) : RegistryState :=
  ensureHandlersModel
    { r with activeServers :=
        if id ∈ r.activeServers then r.activeServers else r.activeServers ++ [id] }

/-- `unregisterServer`: remove from the `activeServers` set. -/
def unregisterServerModel (r : RegistryState) (id : Nat) : RegistryState :=
  { r with activeServers := r.activeServers.filter (fun j => j != id) }

/-- A call into the registry module. -/
inductive RegOp where
  | register (id : Nat)
  | unregister (id : Nat)
deriving DecidableEq, Repr

/-- Whether an op is a registration. -/
def RegOp.isRegisterOp : RegOp → Bool
  | RegOp.register _ => true
  | RegOp.unregister _ => false

/-- Run a sequence of registry calls from a given state. -/
def applyRegOps (r : RegistryState) : List RegOp → RegistryState
  | [] => r
  | op :: ops =>
    applyRegOps
      (match op with
       | RegOp.register i => registerServerModel r i
       | RegOp.unregister i => unregisterServerModel r i) ops

/-! ### Derived observations and concrete fixtures -/

/-- Whether the child is gone: no handle, or its one-shot exit event has
already fired (a code or a signal is recorded). -/
def childGone (w : World) : Bool :=
  match w.sm.process with
  | none => true
  | some p => p.exitEventFired

/-- The first 14 characters of an error message: enough to tell the four
failure messages of `start` apart, whatever their parameters. -/
def msgClass (s : String) : List Char :=
  s.toList.take 14

/-- The classification each failure cause's message falls into. -/
def classTag : StartError → List Char
  | StartError.failedToSpawn _ => ("Failed to spaw").toList
  | StartError.exitedBeforeReady _ _ => ("redis-server e").toList
  | StartError.killedBySignal _ => ("redis-server w").toList
  | StartError.notReadyWithinTimeout _ => ("redis-server d").toList

/-- Whether a `start` outcome is the exited-before-ready failure. -/
def resultIsExitedBeforeReady : Except StartError Unit → Bool
  | Except.error (StartError.exitedBeforeReady _ _) => true
  | _ => false

/-- Options fixture with short timeouts for concrete evaluation. -/
def sampleOpts : ServerManagerOptions :=
  { redisServerPath := "/opt/falkordb/redis-server",
    config := "unixsocket /tmp/fdb.sock",
    socketPath := "/tmp/fdb.sock",
    startupTimeoutMs := some 200,
    pollIntervalMs := some 100 }

/-- A supervisor with a live child process. -/
def liveSM : SMState :=
  { options := sampleOpts, process := some { pid := some 42 },
    configFilePath := some ("/tmp/falkordblite/redis.conf"), ownsConfigFile := true }

/-- A supervisor whose child has exited with code 0 (pid still recorded). -/
def exitedSM : SMState :=
  { options := sampleOpts, process := some { pid := some 42, exitCode := some 0 },
    configFilePath := some ("/tmp/falkordblite/redis.conf"), ownsConfigFile := true }

/-- A running-server world: live process, config and socket files on disk. -/
def liveWorld : World :=
  { sm := liveSM,
    files := [("/tmp/falkordblite/redis.conf"), ("/tmp/fdb.sock")],
    registered := true }

/-- A stop environment in which the child never exits during any wait. -/
def stopEnvNoExit : StopEnv :=
  { shutdownResult := Except.error ("ECONNREFUSED"),
    wait1 := none, wait2 := none, wait3 := none }

/-- A stop environment in which the child exits during the first wait. -/
def stopEnvQuickExit : StopEnv :=
  { shutdownResult := Except.ok ("+OK"),
    wait1 := some (ExitOutcome.code 0), wait2 := none, wait3 := none }

/-- A fresh, never-started world. -/
def freshWorld : World :=
  { sm := { options := sampleOpts }, files := [], registered := false }

/-- A fresh world with a stale file left at the socket path. -/
def staleWorld : World :=
  { sm := { options := sampleOpts }, files := [("/tmp/fdb.sock")], registered := false }

/-- A start environment whose first probe already succeeds. -/
def startEnvOk : StartEnv :=
  { tmpDir := "/tmp/falkordblite", pid := some 42, childEvent := none, stderr := "",
    probes := fun _ => ProbeResult.response ("+PONG") }

/-- A start environment in which every probe is refused. -/
def startEnvNeverReady : StartEnv :=
  { tmpDir := "/tmp/falkordblite", pid := some 42, childEvent := none, stderr := "",
    probes := fun _ => ProbeResult.connError ("ECONNREFUSED") }

/-- Like `startEnvNeverReady`, but the child exits cleanly (code 0) at
model time 0. -/
def startEnvCleanExit : StartEnv :=
  { startEnvNeverReady with childEvent := some (0, ChildEvent.exited (some 0) none) }

/-- Like `startEnvNeverReady`, but `spawn` fails at model time 0. -/
def startEnvSpawnFail : StartEnv :=
  { startEnvNeverReady with
      pid := none,
      childEvent := some (0, ChildEvent.spawnError ("ENOENT")) }

/-- Like `startEnvNeverReady`, but the child exits with code 1 at model
time 0 after writing to stderr. -/
def startEnvCrash : StartEnv :=
  { startEnvNeverReady with
      childEvent := some (0, ChildEvent.exited (some 1) none),
      stderr := "bad config" }

/-- Probes that fail twice, then succeed. -/
def probesLate : Nat → ProbeResult := fun n =>
  if n < 2 then ProbeResult.connError ("ECONNREFUSED")
  else ProbeResult.response ("+PONG\r\n")

/-! ## General lemmas about the embedded operations -/

/-- A caught best-effort unlink leaves the target absent. -/
theorem unlink_catch_not_mem (files : List String) (p : String) :
    p ∉ (match unlinkModel files p with
         | Except.ok fs => fs
         | Except.error _ => files) := by
  unfold unlinkModel
  by_cases h : p ∈ files <;> simp [h, List.mem_filter]

/-- A caught best-effort unlink never creates files. -/
theorem unlink_catch_preserves_not_mem (files : List String) (p q : String) (h : q ∉ files) :
    q ∉ (match unlinkModel files p with
         | Except.ok fs => fs
         | Except.error _ => files) := by
  unfold unlinkModel
  by_cases hm : p ∈ files
  · simp only [hm, if_true, List.mem_filter]
    intro hq
    exact absurd hq.1 h
  · simp only [hm, if_false]
    exact h

/-- `cleanupFiles` does not touch the supervisor's own fields. -/
theorem cleanupFilesModel_sm (w : World) : (cleanupFilesModel w).1.sm = w.sm := rfl

/-- `cleanupFiles` does not touch the registry membership flag. -/
theorem cleanupFilesModel_registered (w : World) :
    (cleanupFilesModel w).1.registered = w.registered := rfl

/-- After `cleanupFiles`, the socket file is gone, and so is the config
file when it is recorded and owned by the supervisor. -/
theorem cleanupFilesModel_cleans (w : World) :
    w.sm.options.socketPath ∉ (cleanupFilesModel w).1.files ∧
    (∀ c, w.sm.configFilePath = some c → w.sm.ownsConfigFile = true →
      c ∉ (cleanupFilesModel w).1.files) := by
  constructor
  · exact unlink_catch_not_mem _ _
  · intro c hc ho
    apply unlink_catch_preserves_not_mem
    simp only [cleanupFilesModel, hc, ho, if_true]
    exact unlink_catch_not_mem _ _

/-- `stop` always resolves successfully, whatever the state and
environment. -/
theorem stopModel_result_ok (w : World) (env : StopEnv) (save : Bool) :
    (stopModel w env save).result = Except.ok () := by
  unfold stopModel
  split <;> rfl

/-- `stop` always ends unregistered from the crash-safety registry. -/
theorem stopModel_unregisters (w : World) (env : StopEnv) (save : Bool) :
    (stopModel w env save).world.registered = false := by
  unfold stopModel
  split <;> rfl

/-- The outcome of the `SHUTDOWN` round trip — success or failure — has
no effect on `stop` at all: the try/catch swallows it. -/
theorem stopModel_ignores_shutdownResult (w : World) (env : StopEnv) (save : Bool)
    (r : Except String String) :
    stopModel w { env with shutdownResult := r } save = stopModel w env save := rfl

/-- `stop` does not change the supervisor's options, config-file path or
config-file ownership. -/
theorem stopModel_static (w : World) (env : StopEnv) (save : Bool) :
    (stopModel w env save).world.sm.options = w.sm.options ∧
    (stopModel w env save).world.sm.configFilePath = w.sm.configFilePath ∧
    (stopModel w env save).world.sm.ownsConfigFile = w.sm.ownsConfigFile := by
  obtain ⟨⟨opts, proc, cfp, owns⟩, files, reg⟩ := w
  obtain ⟨sres, w1, w2, w3⟩ := env
  cases proc with
  | none => simp [stopModel, cleanupFilesModel]
  | some p =>
    obtain ⟨pid, pec, psc⟩ := p
    cases pec <;> cases psc <;> cases w1 <;> cases w2 <;> cases w3 <;>
      simp [stopModel, waitForExitModel, cleanupFilesModel, ChildProc.exitEventFired,
        ChildProc.applyExit]

/-- After `stop`, the socket file is gone, and so is the owned config
file. -/
theorem stopModel_cleans (w : World) (env : StopEnv) (save : Bool) :
    w.sm.options.socketPath ∉ (stopModel w env save).world.files ∧
    (∀ c, w.sm.configFilePath = some c → w.sm.ownsConfigFile = true →
      c ∉ (stopModel w env save).world.files) := by
  obtain ⟨⟨opts, proc, cfp, owns⟩, files, reg⟩ := w
  obtain ⟨sres, w1, w2, w3⟩ := env
  cases proc with
  | none =>
    have h := cleanupFilesModel_cleans ⟨⟨opts, none, cfp, owns⟩, files, reg⟩
    exact ⟨h.1, h.2⟩
  | some p =>
    obtain ⟨pid, pec, psc⟩ := p
    cases pec <;> cases psc <;> cases w1 <;> cases w2 <;> cases w3 <;>
      · constructor
        · exact unlink_catch_not_mem _ _
        · intro c hc ho
          simp only at hc ho
          subst hc
          apply unlink_catch_preserves_not_mem
          simp only [cleanupFilesModel, ho, if_true]
          exact unlink_catch_not_mem _ _

/-- After `stop`, the child has either exited (its exit event fired) or
it was sent `SIGKILL` during the escalation ladder. -/
theorem stopModel_stopped_or_killed (w : World) (env : StopEnv) (save : Bool) :
    childGone (stopModel w env save).world = true ∨
      Action.kill Sig.SIGKILL ∈ (stopModel w env save).trace := by
  obtain ⟨⟨opts, proc, cfp, owns⟩, files, reg⟩ := w
  obtain ⟨sres, w1, w2, w3⟩ := env
  cases proc with
  | none =>
    left
    simp [stopModel, cleanupFilesModel, childGone]
  | some p =>
    obtain ⟨pid, pec, psc⟩ := p
    cases pec with
    | some c =>
      left
      cases psc <;>
        simp [stopModel, cleanupFilesModel, childGone, ChildProc.exitEventFired]
    | none =>
      cases psc with
      | some s =>
        right
        simp [stopModel, waitForExitModel, cleanupFilesModel, ChildProc.exitEventFired]
      | none =>
        cases w1 with
        | some o =>
          left
          cases o <;>
            simp [stopModel, waitForExitModel, cleanupFilesModel, childGone,
              ChildProc.exitEventFired, ChildProc.applyExit]
        | none =>
          cases w2 with
          | some o =>
            left
            cases o <;>
              simp [stopModel, waitForExitModel, cleanupFilesModel, childGone,
                ChildProc.exitEventFired, ChildProc.applyExit]
          | none =>
            right
            cases w3 <;>
              simp [stopModel, waitForExitModel, cleanupFilesModel,
                ChildProc.exitEventFired, ChildProc.applyExit]

/-- What `start` leaves in the supervisor's own fields, in both the
success and the failure branch. -/
theorem startModel_sm (w : World) (envS : StartEnv) (hp : 0 < startPollMs w.sm.options) :
    (startModel w envS hp).world.sm =
      { w.sm with
          process := some (procAtSettle envS (raceSettleTime w.sm.options envS hp)),
          configFilePath := some (startConfigPath w.sm.options envS.tmpDir),
          ownsConfigFile := w.sm.options.configPath.isNone } := by
  unfold startModel
  cases hR : raceResultOf w.sm.options envS hp <;> (simp only [hR]; try rfl)

/-! ## C1 -/

/-- Claim C1: on a live child, `stop` performs the escalation ladder in
fixed order — shutdown command, wait 5000 ms, then only if that wait did
not observe the exit: `SIGTERM` and wait 3000 ms, then only if that wait
did not observe the exit either: `SIGKILL` and wait 2000 ms — followed by
file cleanup and unregistration; a later step is never taken when an
earlier wait observed the exit. -/
theorem stop_escalation_ladder (w : World) (env : StopEnv) (save : Bool)
    (p : ChildProc) (hproc : w.sm.process = some p)
    (hcode : p.exitCode = none) (hsig : p.signalCode = none) :
    (stopModel w env save).trace =
      Action.sendShutdown save :: Action.waitForExit 5000 ::
        ((if env.wait1.isSome then [] else
          Action.kill Sig.SIGTERM :: Action.waitForExit 3000 ::
            (if env.wait2.isSome then [] else
              [Action.kill Sig.SIGKILL, Action.waitForExit 2000])) ++
          (cleanupActions w.sm ++ [Action.unregisterServer])) := by
  obtain ⟨⟨opts, proc, cfp, owns⟩, files, reg⟩ := w
  obtain ⟨pid, pec, psc⟩ := p
  simp only at hproc hcode hsig
  subst hproc hcode hsig
  obtain ⟨sres, w1, w2, w3⟩ := env
  cases w1 <;> cases w2 <;> cases w3 <;>
    simp [stopModel, waitForExitModel, ChildProc.exitEventFired, ChildProc.applyExit,
      cleanupFilesModel, cleanupActions]

/-- Witness for C1 at a concrete live supervisor and an environment in
which no wait observes an exit: all three ladder steps appear in order. -/
theorem stop_escalation_ladder_witness :
    liveWorld.sm.process = some { pid := some 42 } ∧
    (stopModel liveWorld stopEnvNoExit false).trace =
      Action.sendShutdown false :: Action.waitForExit 5000 ::
        ((if stopEnvNoExit.wait1.isSome then [] else
          Action.kill Sig.SIGTERM :: Action.waitForExit 3000 ::
            (if stopEnvNoExit.wait2.isSome then [] else
              [Action.kill Sig.SIGKILL, Action.waitForExit 2000])) ++
          (cleanupActions liveWorld.sm ++ [Action.unregisterServer])) :=
  ⟨rfl, stop_escalation_ladder liveWorld stopEnvNoExit false { pid := some 42 } rfl rfl rfl⟩

/-! ## C2 -/

/-- Claim C2 (amended): from any supervisor state, `stop` resolves
successfully; the shutdown command's outcome is swallowed; the call ends
unregistered with the socket file and the owned config file removed; and
a second `stop` call, from the state the first one left, again resolves
successfully and re-establishes the same end state.  (The amendment drops
the "process stopped or absent" part of the claimed end state: the final
`SIGKILL` wait is best-effort, so the child can still be unreaped when
`stop` returns — see the counterexample.) -/
theorem stop_never_throws_idempotent (w : World) (env env2 : StopEnv)
    (save save2 : Bool) (r : Except String String) :
    (stopModel w env save).result = Except.ok () ∧
    stopModel w { env with shutdownResult := r } save = stopModel w env save ∧
    (stopModel w env save).world.registered = false ∧
    w.sm.options.socketPath ∉ (stopModel w env save).world.files ∧
    (stopModel (stopModel w env save).world env2 save2).result = Except.ok () ∧
    (stopModel (stopModel w env save).world env2 save2).world.registered = false ∧
    w.sm.options.socketPath ∉ (stopModel (stopModel w env save).world env2 save2).world.files ∧
    (∀ c, w.sm.configFilePath = some c → w.sm.ownsConfigFile = true →
      c ∉ (stopModel w env save).world.files ∧
      c ∉ (stopModel (stopModel w env save).world env2 save2).world.files) := by
  refine ⟨stopModel_result_ok w env save, stopModel_ignores_shutdownResult w env save r,
    stopModel_unregisters w env save, (stopModel_cleans w env save).1,
    stopModel_result_ok _ env2 save2, stopModel_unregisters _ env2 save2, ?_, ?_⟩
  · have hs := (stopModel_static w env save).1
    have h := (stopModel_cleans (stopModel w env save).world env2 save2).1
    rwa [hs] at h
  · intro c hc ho
    have hst := stopModel_static w env save
    refine ⟨(stopModel_cleans w env save).2 c hc ho, ?_⟩
    exact (stopModel_cleans (stopModel w env save).world env2 save2).2 c
      (by rw [hst.2.1]; exact hc) (by rw [hst.2.2]; exact ho)

/-- Witness for C2 at a concrete running world: the child exits in the
first wait of the first call, the second call sees an exited process. -/
theorem stop_never_throws_idempotent_witness :
    (stopModel liveWorld stopEnvQuickExit false).result = Except.ok () ∧
    stopModel liveWorld { stopEnvQuickExit with shutdownResult := Except.error ("boom") } false =
      stopModel liveWorld stopEnvQuickExit false ∧
    (stopModel liveWorld stopEnvQuickExit false).world.registered = false ∧
    liveWorld.sm.options.socketPath ∉ (stopModel liveWorld stopEnvQuickExit false).world.files ∧
    (stopModel (stopModel liveWorld stopEnvQuickExit false).world stopEnvNoExit true).result =
      Except.ok () ∧
    (stopModel (stopModel liveWorld stopEnvQuickExit false).world stopEnvNoExit
      true).world.registered = false ∧
    liveWorld.sm.options.socketPath ∉
      (stopModel (stopModel liveWorld stopEnvQuickExit false).world stopEnvNoExit
        true).world.files ∧
    (∀ c, liveWorld.sm.configFilePath = some c → liveWorld.sm.ownsConfigFile = true →
      c ∉ (stopModel liveWorld stopEnvQuickExit false).world.files ∧
      c ∉ (stopModel (stopModel liveWorld stopEnvQuickExit false).world stopEnvNoExit
        true).world.files) :=
  stop_never_throws_idempotent liveWorld stopEnvQuickExit stopEnvNoExit false true
    (Except.error ("boom"))

/-- Counterexample to C2 as stated: in a run whose child survives every
wait of the escalation ladder (for example, stuck in uninterruptible
sleep), `stop` still resolves successfully — but the end state does not
have the process stopped or absent: the handle is still there with no
exit recorded, and the liveness query still answers `true`. -/
theorem stop_end_state_counterexample :
    (stopModel liveWorld stopEnvNoExit false).result = Except.ok () ∧
    isRunningModel (stopModel liveWorld stopEnvNoExit false).world.sm = true ∧
    childGone (stopModel liveWorld stopEnvNoExit false).world = false :=
  ⟨rfl, rfl, rfl⟩

/-! ## C3 -/

/-- Claim C3 (amended): for a supervisor on which `start` succeeded, once
`stop` returns the socket file no longer exists, the config file no
longer exists when the supervisor owned it (no caller-supplied
`configPath`), and the child has either exited or been sent the forceful
kill signal (the final 2000 ms wait is best-effort, so the exit may be
observed only after `stop` returns). -/
theorem start_stop_no_residue (w : World) (envS : StartEnv)
    (hp : 0 < startPollMs w.sm.options) (env : StopEnv) (save : Bool)
    (_hok : (startModel w envS hp).result = Except.ok ()) :
    w.sm.options.socketPath ∉
      (stopModel (startModel w envS hp).world env save).world.files ∧
    (w.sm.options.configPath.isNone = true →
      startConfigPath w.sm.options envS.tmpDir ∉
        (stopModel (startModel w envS hp).world env save).world.files) ∧
    (childGone (stopModel (startModel w envS hp).world env save).world = true ∨
      Action.kill Sig.SIGKILL ∈ (stopModel (startModel w envS hp).world env save).trace) := by
  have hsm := startModel_sm w envS hp
  refine ⟨?_, ?_, stopModel_stopped_or_killed _ env save⟩
  · have h := (stopModel_cleans (startModel w envS hp).world env save).1
    rw [hsm] at h
    exact h
  · intro howns
    exact (stopModel_cleans (startModel w envS hp).world env save).2
      (startConfigPath w.sm.options envS.tmpDir)
      (by rw [hsm]) (by rw [hsm]; exact howns)

/-- If probe `n` is the first to succeed, the poller (started at attempt
`k ≤ n`) swallows every earlier failure and resolves at attempt `n`,
provided attempt `n` still lies within the deadline. -/
theorem waitForReadyAux_ready_from (timeoutMs pollMs : Nat) (probes : Nat → ProbeResult)
    (hp : 0 < pollMs) (n : Nat)
    (hok : pingModel (probes n) = Except.ok ()) (hd : n * pollMs ≤ timeoutMs) :
    ∀ d k, n - k = d → k ≤ n →
      (∀ m, m < n → pingModel (probes m) ≠ Except.ok ()) →
      waitForReadyAux timeoutMs pollMs probes hp k = ReadyResult.ready n := by
  intro d
  induction d with
  | zero =>
    intro k hdk hk hfail
    have hkn : k = n := by omega
    subst hkn
    rw [waitForReadyAux]
    rw [if_neg (by omega), hok]
  | succ d ih =>
    intro k hdk hk hfail
    have hkn : k < n := by omega
    have hkd : k * pollMs ≤ timeoutMs :=
      le_trans (Nat.mul_le_mul_right pollMs (Nat.le_of_lt hkn)) hd
    rw [waitForReadyAux]
    rw [if_neg (by omega)]
    cases hpm : pingModel (probes k) with
    | ok u =>
      cases u
      exact absurd hpm (hfail k hkn)
    | error e =>
      exact ih (k + 1) (by omega) (by omega) hfail

/-- If no probe ever succeeds, the poller times out. -/
theorem waitForReadyAux_all_fail (timeoutMs pollMs : Nat) (probes : Nat → ProbeResult)
    (hp : 0 < pollMs)
    (hfail : ∀ m, pingModel (probes m) ≠ Except.ok ()) :
    ∀ d k, timeoutMs + pollMs - k * pollMs ≤ d →
      ∃ n, waitForReadyAux timeoutMs pollMs probes hp k = ReadyResult.timedOut n := by
  intro d
  induction d with
  | zero =>
    intro k hk
    have hgt : k * pollMs > timeoutMs := by omega
    exact ⟨k, by rw [waitForReadyAux, if_pos hgt]⟩
  | succ d ih =>
    intro k hk
    by_cases h : k * pollMs > timeoutMs
    · exact ⟨k, by rw [waitForReadyAux, if_pos h]⟩
    · have step : waitForReadyAux timeoutMs pollMs probes hp k =
          waitForReadyAux timeoutMs pollMs probes hp (k + 1) := by
        rw [waitForReadyAux, if_neg h]
        cases hpm : pingModel (probes k) with
        | ok u =>
          cases u
          exact absurd hpm (hfail k)
        | error e => rfl
      rw [step]
      apply ih
      have hmul : (k + 1) * pollMs = k * pollMs + pollMs := by ring
      omega


/-! ## C4 -/

/-- Claim C4 (amended): a single health-check round trip counts as
success exactly when the response CONTAINS the recognized positive
acknowledgement token (the source checks `includes`, not "begins with");
a connection error rejects with that error and any other response fails
by socket timeout; and the poller swallows every failing probe and
retries at the poll interval, so that when probe `n` is the first to
succeed within the deadline, readiness resolves at attempt `n` and no
earlier failure reaches the caller. -/
theorem ping_includes_and_retries :
    (∀ s, pingModel (ProbeResult.response s) = Except.ok () ↔
      stringIncludes pongToken s = true) ∧
    (∀ m, pingModel (ProbeResult.connError m) = Except.error m) ∧
    (∀ s, stringIncludes pongToken s = false →
      pingModel (ProbeResult.response s) = Except.error ("PING timed out")) ∧
    (∀ timeoutMs pollMs probes (hp : 0 < pollMs) n,
      (∀ m, m < n → pingModel (probes m) ≠ Except.ok ()) →
      pingModel (probes n) = Except.ok () →
      n * pollMs ≤ timeoutMs →
      waitForReadyAux timeoutMs pollMs probes hp 0 = ReadyResult.ready n) := by
  refine ⟨?_, fun m => rfl, ?_, ?_⟩
  · intro s
    unfold pingModel
    by_cases h : stringIncludes pongToken s <;> simp [h]
  · intro s h
    unfold pingModel
    simp [h]
  · intro timeoutMs pollMs probes hp n hfail hok hd
    exact waitForReadyAux_ready_from timeoutMs pollMs probes hp n hok hd n 0 rfl
      (Nat.zero_le n) hfail

/-- Witness for C4: with two refused probes and a third that answers
with a PONG, the poller resolves at attempt 2. -/
theorem ping_includes_and_retries_witness :
    waitForReadyAux 200 100 probesLate (by decide) 0 = ReadyResult.ready 2 :=
  (ping_includes_and_retries).2.2.2 200 100 probesLate (by decide) 2
    (by
      intro m hm
      have hm2 : m = 0 ∨ m = 1 := by omega
      rcases hm2 with h | h <;> subst h <;> simp [probesLate, pingModel])
    (by rfl)
    (by decide)

/-- Counterexample to C4 as stated: a response that merely contains the
token in the middle — it does not begin with it — is still accepted as a
successful health check, because the source tests `includes`. -/
theorem ping_prefix_counterexample :
    pingModel (ProbeResult.response ("x+PONG")) = Except.ok () ∧
    ¬ List.IsPrefix (pongToken.toList) (("x+PONG").toList) :=
  ⟨rfl, by decide⟩

/-! ## C5 -/

/-- Claim C5: whenever either race branch fails, `start` force-kills the
child if it is still alive (no exit code recorded), removes the socket
file and the transient (owned) config file best-effort, and rethrows the
originating race error; and whenever `start` succeeds, the supervisor is
registered with the crash-safety registry before `start` returns. -/
theorem start_failure_cleanup_and_registration (w : World) (envS : StartEnv)
    (hp : 0 < startPollMs w.sm.options) :
    (∀ e, (startModel w envS hp).result = Except.error e →
      raceResultOf w.sm.options envS hp = Except.error e ∧
      w.sm.options.socketPath ∉ (startModel w envS hp).world.files ∧
      (w.sm.options.configPath.isNone = true →
        startConfigPath w.sm.options envS.tmpDir ∉ (startModel w envS hp).world.files) ∧
      (isRunningModel (startModel w envS hp).world.sm = true →
        Action.kill Sig.SIGKILL ∈ (startModel w envS hp).trace)) ∧
    ((startModel w envS hp).result = Except.ok () →
      (startModel w envS hp).world.registered = true ∧
      Action.registerServer ∈ (startModel w envS hp).trace) := by
  cases hR : raceResultOf w.sm.options envS hp with
  | error e0 =>
    constructor
    · intro e he
      simp only [startModel, hR] at he ⊢
      cases he
      refine ⟨rfl, ?_, ?_, ?_⟩
      · exact (cleanupFilesModel_cleans _).1
      · intro howns
        exact (cleanupFilesModel_cleans _).2 _ rfl howns
      · intro hlive
        simp only [cleanupFilesModel_sm] at hlive
        simp [hlive]
    · intro he
      simp only [startModel, hR] at he
      exact Except.noConfusion he
  | ok u =>
    constructor
    · intro e he
      simp only [startModel, hR] at he
      exact Except.noConfusion he
    · intro _
      constructor
      · simp only [startModel, hR]
      · simp [startModel, hR]

/-- Witness for C5 at a start attempt that times out (every probe
refused): the discharged hypotheses exhibit the failure branch. -/
theorem start_failure_cleanup_and_registration_witness :
    (∀ e, (startModel freshWorld startEnvNeverReady (by decide)).result = Except.error e →
      raceResultOf freshWorld.sm.options startEnvNeverReady (by decide) = Except.error e ∧
      freshWorld.sm.options.socketPath ∉
        (startModel freshWorld startEnvNeverReady (by decide)).world.files ∧
      (freshWorld.sm.options.configPath.isNone = true →
        startConfigPath freshWorld.sm.options startEnvNeverReady.tmpDir ∉
          (startModel freshWorld startEnvNeverReady (by decide)).world.files) ∧
      (isRunningModel (startModel freshWorld startEnvNeverReady (by decide)).world.sm = true →
        Action.kill Sig.SIGKILL ∈
          (startModel freshWorld startEnvNeverReady (by decide)).trace)) ∧
    ((startModel freshWorld startEnvNeverReady (by decide)).result = Except.ok () →
      (startModel freshWorld startEnvNeverReady (by decide)).world.registered = true ∧
      Action.registerServer ∈ (startModel freshWorld startEnvNeverReady (by decide)).trace) :=
  start_failure_cleanup_and_registration freshWorld startEnvNeverReady (by decide)

/-! ## C10 -/

/-- Claim C10: when the child exits with status code 0 and no signal
before any probe succeeded, the early-exit watcher never rejects; with
no probe ever succeeding, `start` fails only at the readiness deadline,
with the did-not-become-ready timeout error and not with an
exited-before-ready error. -/
theorem clean_exit_no_early_reject (w : World) (envS : StartEnv)
    (hp : 0 < startPollMs w.sm.options) (t : Nat)
    (hev : envS.childEvent = some (t, ChildEvent.exited (some 0) none))
    (hfail : ∀ n, pingModel (envS.probes n) ≠ Except.ok ()) :
    earlyExitSettle envS = none ∧
    (startModel w envS hp).result =
      Except.error (StartError.notReadyWithinTimeout (startTimeoutMs w.sm.options)) ∧
    resultIsExitedBeforeReady (startModel w envS hp).result = false := by
  have hee : earlyExitSettle envS = none := by
    simp [earlyExitSettle, hev, earlyExitReject]
  obtain ⟨n, hn⟩ := waitForReadyAux_all_fail (startTimeoutMs w.sm.options)
    (startPollMs w.sm.options) envS.probes hp hfail
    (startTimeoutMs w.sm.options + startPollMs w.sm.options) 0 (by omega)
  have hrr : readyResultOf w.sm.options envS hp = ReadyResult.timedOut n := hn
  have hr : raceResultOf w.sm.options envS hp =
      Except.error (StartError.notReadyWithinTimeout (startTimeoutMs w.sm.options)) := by
    simp [raceResultOf, hee, readyOutcomeOf, hrr]
  refine ⟨hee, ?_, ?_⟩
  · simp [startModel, hr]
  · simp [startModel, hr, resultIsExitedBeforeReady]

/-- Witness for C10: a concrete clean exit at model time 0 with every
probe refused yields the timeout error. -/
theorem clean_exit_no_early_reject_witness :
    earlyExitSettle startEnvCleanExit = none ∧
    (startModel freshWorld startEnvCleanExit (by decide)).result =
      Except.error (StartError.notReadyWithinTimeout (startTimeoutMs freshWorld.sm.options)) ∧
    resultIsExitedBeforeReady (startModel freshWorld startEnvCleanExit (by decide)).result =
      false :=
  clean_exit_no_early_reject freshWorld startEnvCleanExit (by decide) 0 rfl
    (fun n => by simp [startEnvCleanExit, startEnvNeverReady, pingModel])


/-! ## C6, C7, C8, C9 and remaining C3 artifacts -/

/-- Taking 14 characters of a string extended on the right only sees the
string itself, when it is long enough. -/
theorem take14_of_append (a : String) (l : List Char) (h : 14 ≤ a.toList.length) :
    (a.toList ++ l).take 14 = a.toList.take 14 :=
  List.take_append_of_le_length h

/-- Each failure message's first 14 characters are determined by its
cause alone, independent of message parameters. -/
theorem msgClass_eq_classTag (e : StartError) : msgClass e.message = classTag e := by
  cases e with
  | failedToSpawn m =>
    unfold msgClass
    rw [show (StartError.failedToSpawn m).message.toList
        = ("Failed to spawn redis-server: ").toList ++ m.toList from rfl]
    rw [take14_of_append _ _ (by decide)]
    rfl
  | exitedBeforeReady c st =>
    unfold msgClass
    rw [show (StartError.exitedBeforeReady c st).message.toList
        = ("redis-server exited with code ").toList ++
          ((toString c).toList ++ ((" before becoming ready.\nstderr: ").toList ++ st.toList))
      from by
        show ((("redis-server exited with code " ++ toString c) ++
          " before becoming ready.\nstderr: ") ++ st).toList = _
        simp [String.toList, String.data_append, List.append_assoc]]
    rw [take14_of_append _ _ (by decide)]
    rfl
  | killedBySignal sg =>
    unfold msgClass
    rw [show (StartError.killedBySignal sg).message.toList
        = ("redis-server was killed by signal ").toList ++
          (sg.toList ++ (" before becoming ready.").toList) from by
        show (("redis-server was killed by signal " ++ sg) ++
          " before becoming ready.").toList = _
        simp [String.toList, String.data_append, List.append_assoc]]
    rw [take14_of_append _ _ (by decide)]
    rfl
  | notReadyWithinTimeout t =>
    unfold msgClass
    rw [show (StartError.notReadyWithinTimeout t).message.toList
        = ("redis-server did not become ready within ").toList ++
          ((toString t).toList ++ ("ms").toList) from by
        show (("redis-server did not become ready within " ++ toString t) ++ "ms").toList = _
        simp [String.toList, String.data_append, List.append_assoc]]
    rw [take14_of_append _ _ (by decide)]
    rfl

/-- Messages whose classifications differ are distinct strings. -/
theorem message_distinguishes (e1 e2 : StartError) (h : classTag e1 ≠ classTag e2) :
    e1.message ≠ e2.message := fun hm =>
  h (by rw [← msgClass_eq_classTag, ← msgClass_eq_classTag, hm])


/-- What the early-exit watcher's `exit` handler can reject with. -/
theorem earlyExitReject_cases (stderr : String) (code : Option Int) (signal : Option String)
    (e : StartError) (h : earlyExitReject stderr code signal = some e) :
    (∃ c, code = some c ∧ c ≠ 0 ∧ e = StartError.exitedBeforeReady c stderr) ∨
    (∃ s, e = StartError.killedBySignal s) := by
  cases code with
  | some c =>
    simp only [earlyExitReject] at h
    by_cases hz : (c != 0) = true
    · rw [if_pos hz] at h
      cases h
      exact Or.inl ⟨c, rfl, by simpa using hz, rfl⟩
    · rw [if_neg hz] at h
      by_cases hs : signal.isSome = true
      · rw [if_pos hs] at h
        cases h
        exact Or.inr ⟨_, rfl⟩
      · rw [if_neg hs] at h
        exact Option.noConfusion h
  | none =>
    cases signal with
    | some s =>
      simp only [earlyExitReject] at h
      cases h
      exact Or.inr ⟨s, rfl⟩
    | none =>
      simp only [earlyExitReject] at h
      exact Option.noConfusion h

/-- What the early-exit watcher as a whole can reject with, and the
event that caused it. -/
theorem earlyExitSettle_cases (envS : StartEnv) (te : Nat) (e : StartError)
    (h : earlyExitSettle envS = some (te, e)) :
    (∃ m, envS.childEvent = some (te, ChildEvent.spawnError m) ∧
      e = StartError.failedToSpawn m) ∨
    (∃ c s, envS.childEvent = some (te, ChildEvent.exited (some c) s) ∧ c ≠ 0 ∧
      e = StartError.exitedBeforeReady c envS.stderr) ∨
    (∃ s, e = StartError.killedBySignal s) := by
  cases hce : envS.childEvent with
  | none =>
    simp only [earlyExitSettle, hce] at h
    exact Option.noConfusion h
  | some pr =>
    obtain ⟨t, ev⟩ := pr
    cases ev with
    | spawnError m =>
      simp only [earlyExitSettle, hce, Option.some.injEq, Prod.mk.injEq] at h
      left
      refine ⟨m, ?_, h.2.symm⟩
      rw [h.1]
    | exited c s =>
      simp only [earlyExitSettle, hce] at h
      cases her : earlyExitReject envS.stderr c s with
      | none =>
        simp only [her] at h
        exact Option.noConfusion h
      | some e1 =>
        simp only [her, Option.some.injEq, Prod.mk.injEq] at h
        rcases earlyExitReject_cases envS.stderr c s e1 her with ⟨c0, hc0, hz, he⟩ | ⟨s0, he⟩
        · right; left
          refine ⟨c0, s, ?_, hz, ?_⟩
          · rw [hc0, h.1]
          · rw [← h.2, he]
        · right; right
          exact ⟨s0, by rw [← h.2, he]⟩

/-- A `start` failure carries exactly the race's originating error. -/
theorem startModel_error_race (w : World) (envS : StartEnv)
    (hp : 0 < startPollMs w.sm.options) (e : StartError)
    (h : (startModel w envS hp).result = Except.error e) :
    raceResultOf w.sm.options envS hp = Except.error e := by
  cases hR : raceResultOf w.sm.options envS hp with
  | error e0 =>
    simp only [startModel, hR] at h
    cases h
    rfl
  | ok u =>
    simp only [startModel, hR] at h
    exact Except.noConfusion h

/-- Exhaustive classification of `start` failures by their cause. -/
theorem startModel_error_cases (w : World) (envS : StartEnv)
    (hp : 0 < startPollMs w.sm.options) (e : StartError)
    (h : (startModel w envS hp).result = Except.error e) :
    (∃ m t, envS.childEvent = some (t, ChildEvent.spawnError m) ∧
      e = StartError.failedToSpawn m) ∨
    (∃ c s t, envS.childEvent = some (t, ChildEvent.exited (some c) s) ∧ c ≠ 0 ∧
      e = StartError.exitedBeforeReady c envS.stderr) ∨
    (∃ s, e = StartError.killedBySignal s) ∨
    e = StartError.notReadyWithinTimeout (startTimeoutMs w.sm.options) := by
  have hr := startModel_error_race w envS hp e h
  cases hee : earlyExitSettle envS with
  | none =>
    simp only [raceResultOf, hee] at hr
    cases hrr : readyResultOf w.sm.options envS hp with
    | ready n =>
      simp only [readyOutcomeOf, hrr] at hr
      exact Except.noConfusion hr
    | timedOut n =>
      simp only [readyOutcomeOf, hrr] at hr
      cases hr
      right; right; right; rfl
  | some pe =>
    obtain ⟨te, e0⟩ := pe
    simp only [raceResultOf, hee] at hr
    by_cases hle : (readyResultOf w.sm.options envS hp).attempt * startPollMs w.sm.options ≤ te
    · rw [if_pos hle] at hr
      cases hrr : readyResultOf w.sm.options envS hp with
      | ready n =>
        simp only [readyOutcomeOf, hrr] at hr
        exact Except.noConfusion hr
      | timedOut n =>
        simp only [readyOutcomeOf, hrr] at hr
        cases hr
        right; right; right; rfl
    · rw [if_neg hle] at hr
      cases hr
      rcases earlyExitSettle_cases envS te e hee with ⟨m, hc, he⟩ | ⟨c, s, hc, hz, he⟩ | ⟨s, he⟩
      · exact Or.inl ⟨m, te, hc, he⟩
      · exact Or.inr (Or.inl ⟨c, s, te, hc, hz, he⟩)
      · exact Or.inr (Or.inr (Or.inl ⟨s, he⟩))


/-- Claim C6 (amended): every `start` failure is classified by its
cause: a spawn error as "Failed to spawn", a child exiting with a
non-zero code before readiness as "exited with code" carrying the
captured stderr verbatim, a child killed by a signal as its own "was
killed by signal" classification, and deadline expiry as "did not
become ready within"; messages of distinct classifications are never
equal.  (The amendment restricts the exited-before-ready clause to
non-zero exit codes: a clean code-0 exit produces no early-exit
rejection and surfaces as the timeout classification instead — see the
counterexample.) -/
theorem start_error_classification (w : World) (envS : StartEnv)
    (hp : 0 < startPollMs w.sm.options) (e : StartError)
    (h : (startModel w envS hp).result = Except.error e) :
    ((∃ m t, envS.childEvent = some (t, ChildEvent.spawnError m) ∧
        e = StartError.failedToSpawn m) ∨
      (∃ c s t, envS.childEvent = some (t, ChildEvent.exited (some c) s) ∧ c ≠ 0 ∧
        e = StartError.exitedBeforeReady c envS.stderr) ∨
      (∃ s, e = StartError.killedBySignal s) ∨
      e = StartError.notReadyWithinTimeout (startTimeoutMs w.sm.options)) ∧
    (∀ c st, ∃ pre, (StartError.exitedBeforeReady c st).message = pre ++ st) ∧
    (∀ e1 e2 : StartError, classTag e1 ≠ classTag e2 → e1.message ≠ e2.message) ∧
    (∀ m c st t,
      (StartError.failedToSpawn m).message ≠ (StartError.exitedBeforeReady c st).message ∧
      (StartError.failedToSpawn m).message ≠ (StartError.notReadyWithinTimeout t).message ∧
      (StartError.exitedBeforeReady c st).message ≠
        (StartError.notReadyWithinTimeout t).message) := by
  refine ⟨startModel_error_cases w envS hp e h, ?_, message_distinguishes, ?_⟩
  · intro c st
    exact ⟨"redis-server exited with code " ++ toString c ++
      " before becoming ready.\nstderr: ", rfl⟩
  · intro m c st t
    refine ⟨message_distinguishes _ _ ?_, message_distinguishes _ _ ?_,
      message_distinguishes _ _ ?_⟩ <;> (simp only [classTag]; decide)

/-- Recording an exit outcome never changes the recorded pid. -/
theorem applyExit_pid (p : ChildProc) (o : ExitOutcome) : (p.applyExit o).pid = p.pid := by
  cases o <;> rfl

/-- Claim C7 (amended): the liveness query answers `true` exactly when a
process handle exists with no recorded exit code, and both queries are
pure functions of the supervisor state (by construction they perform no
socket I/O and cannot block); but the pid query returns the recorded pid
whenever a handle exists — `stop` never clears the handle, and the pid
survives both the child's exit and `stop` itself (see the
counterexample to the claim's "defined only while live"). -/
theorem liveness_pid_queries (st : SMState) (w : World) (env : StopEnv) (save : Bool) :
    (isRunningModel st = true ↔ ∃ q, st.process = some q ∧ q.exitCode = none) ∧
    getPidModel st = st.process.bind ChildProc.pid ∧
    getPidModel (stopModel w env save).world.sm = getPidModel w.sm := by
  refine ⟨?_, rfl, ?_⟩
  · cases hq : st.process with
    | none => simp [isRunningModel, hq]
    | some q => cases hc : q.exitCode <;> simp [isRunningModel, hq, hc]
  · obtain ⟨⟨opts, proc, cfp, owns⟩, files, reg⟩ := w
    obtain ⟨sres, w1, w2, w3⟩ := env
    cases proc with
    | none => simp [stopModel, cleanupFilesModel, getPidModel]
    | some p =>
      obtain ⟨pid, pec, psc⟩ := p
      cases pec <;> cases psc <;> cases w1 <;> cases w2 <;> cases w3 <;>
        simp [stopModel, waitForExitModel, cleanupFilesModel, getPidModel,
          ChildProc.exitEventFired, applyExit_pid]

/-- Claim C8: when a file already exists at the configured socket path,
the first three actions of `start` are, in this order: unlink that
stale file, write the config file, spawn the child — so the stale
socket is removed before the config is written and the child spawned. -/
theorem stale_socket_removed_before_spawn (w : World) (envS : StartEnv)
    (hp : 0 < startPollMs w.sm.options) (hstale : w.sm.options.socketPath ∈ w.files) :
    (startModel w envS hp).trace.take 3 =
      [Action.unlinkFile w.sm.options.socketPath,
       Action.writeFile (startConfigPath w.sm.options envS.tmpDir) w.sm.options.config,
       Action.spawn w.sm.options.redisServerPath (startConfigPath w.sm.options envS.tmpDir)] := by
  unfold startModel
  cases hR : raceResultOf w.sm.options envS hp <;> simp [hR, hstale]

/-- Running registry calls from any state: the guard ends set iff it
started set or some registration occurred, and the handler block is
installed exactly once more iff the guard was clear and some
registration occurred. -/
theorem applyRegOps_handlers (ops : List RegOp) : ∀ r : RegistryState,
    (applyRegOps r ops).handlersRegistered =
      (r.handlersRegistered || ops.any RegOp.isRegisterOp) ∧
    (applyRegOps r ops).installCount =
      r.installCount +
        (if r.handlersRegistered then 0 else (if ops.any RegOp.isRegisterOp then 1 else 0)) := by
  induction ops with
  | nil =>
    intro r
    cases hreg : r.handlersRegistered <;> simp [applyRegOps, hreg]
  | cons op rest ih =>
    intro r
    cases op with
    | register i =>
      have h := ih (registerServerModel r i)
      have hstep : applyRegOps r (RegOp.register i :: rest) =
          applyRegOps (registerServerModel r i) rest := rfl
      rw [hstep, h.1, h.2]
      cases hreg : r.handlersRegistered <;>
        simp [registerServerModel, ensureHandlersModel, hreg, RegOp.isRegisterOp]
    | unregister i =>
      have h := ih (unregisterServerModel r i)
      have hstep : applyRegOps r (RegOp.unregister i :: rest) =
          applyRegOps (unregisterServerModel r i) rest := rfl
      rw [hstep, h.1, h.2]
      cases hreg : r.handlersRegistered <;>
        simp [unregisterServerModel, hreg, RegOp.isRegisterOp]

/-- Claim C9: from the module's initial state, any sequence of registry
calls installs the global handler block exactly once when it contains a
registration (and never otherwise): the first `registerServer` installs
the handlers, and no later call — registration or not — installs them
again. -/
theorem registry_handlers_installed_once (ops : List RegOp) (i : Nat) :
    (applyRegOps initialRegistry ops).installCount =
      (if ops.any RegOp.isRegisterOp then 1 else 0) ∧
    (applyRegOps initialRegistry (RegOp.register i :: ops)).installCount = 1 ∧
    (applyRegOps initialRegistry (ops ++ [RegOp.register i])).installCount = 1 := by
  have h1 := applyRegOps_handlers ops initialRegistry
  have h2 := applyRegOps_handlers (RegOp.register i :: ops) initialRegistry
  have h3 := applyRegOps_handlers (ops ++ [RegOp.register i]) initialRegistry
  refine ⟨?_, ?_, ?_⟩
  · rw [h1.2]
    cases hany : ops.any RegOp.isRegisterOp <;> simp [initialRegistry, hany]
  · rw [h2.2]
    simp [initialRegistry, RegOp.isRegisterOp, List.any_cons]
  · rw [h3.2]
    simp [initialRegistry, RegOp.isRegisterOp, List.any_append]


/-- Witness for C3: a concrete successful start followed by a stop whose
child exits in the first wait. -/
theorem start_stop_no_residue_witness :
    (startModel freshWorld startEnvOk (by decide)).result = Except.ok () ∧
    (freshWorld.sm.options.socketPath ∉
      (stopModel (startModel freshWorld startEnvOk (by decide)).world
        stopEnvQuickExit false).world.files ∧
    (freshWorld.sm.options.configPath.isNone = true →
      startConfigPath freshWorld.sm.options startEnvOk.tmpDir ∉
        (stopModel (startModel freshWorld startEnvOk (by decide)).world
          stopEnvQuickExit false).world.files) ∧
    (childGone (stopModel (startModel freshWorld startEnvOk (by decide)).world
        stopEnvQuickExit false).world = true ∨
      Action.kill Sig.SIGKILL ∈
        (stopModel (startModel freshWorld startEnvOk (by decide)).world
          stopEnvQuickExit false).trace)) :=
  ⟨by simp +decide [startModel, raceResultOf, earlyExitSettle, readyOutcomeOf, readyResultOf,
      waitForReadyAux, pingModel, startEnvOk, freshWorld, sampleOpts, startTimeoutMs,
      startPollMs, stringIncludes, pongToken],
   start_stop_no_residue freshWorld startEnvOk (by decide) stopEnvQuickExit false
    (by simp +decide [startModel, raceResultOf, earlyExitSettle, readyOutcomeOf, readyResultOf,
      waitForReadyAux, pingModel, startEnvOk, freshWorld, sampleOpts, startTimeoutMs,
      startPollMs, stringIncludes, pongToken])⟩

/-- Counterexample to C3 as stated: after a successful start, a stop run
whose child survives every wait of the ladder (it can be stuck in
uninterruptible sleep beyond the final 2000 ms SIGKILL wait) returns
with the child's exit never observed: a child process can remain alive
when `stop` returns. -/
theorem start_stop_child_alive_counterexample :
    (startModel freshWorld startEnvOk (by decide)).result = Except.ok () ∧
    isRunningModel
      (stopModel (startModel freshWorld startEnvOk (by decide)).world
        stopEnvNoExit false).world.sm = true ∧
    childGone
      (stopModel (startModel freshWorld startEnvOk (by decide)).world
        stopEnvNoExit false).world = false := by
  refine ⟨?_, ?_, ?_⟩ <;>
    simp +decide [startModel, stopModel, raceResultOf, earlyExitSettle, readyOutcomeOf,
      readyResultOf, waitForReadyAux, pingModel, startEnvOk, freshWorld, sampleOpts,
      startTimeoutMs, startPollMs, stringIncludes, pongToken, procAtSettle, raceSettleTime,
      waitForExitModel, cleanupFilesModel, unlinkModel, childGone, isRunningModel,
      ChildProc.exitEventFired, stopEnvNoExit, startConfigPath, cleanupActions]

/-- Witness for C6: a child crashing with exit code 1 and stderr output
yields precisely the exited-before-ready error carrying that stderr. -/
theorem start_error_classification_witness :
    (startModel freshWorld startEnvCrash (by decide)).result =
      Except.error (StartError.exitedBeforeReady 1 ("bad config")) ∧
    ((∃ m t, startEnvCrash.childEvent = some (t, ChildEvent.spawnError m) ∧
        StartError.exitedBeforeReady 1 ("bad config") = StartError.failedToSpawn m) ∨
      (∃ c s t, startEnvCrash.childEvent = some (t, ChildEvent.exited (some c) s) ∧ c ≠ 0 ∧
        StartError.exitedBeforeReady 1 ("bad config") =
          StartError.exitedBeforeReady c startEnvCrash.stderr) ∨
      (∃ s, StartError.exitedBeforeReady 1 ("bad config") = StartError.killedBySignal s) ∨
      StartError.exitedBeforeReady 1 ("bad config") =
        StartError.notReadyWithinTimeout (startTimeoutMs freshWorld.sm.options)) ∧
    (∀ c st, ∃ pre, (StartError.exitedBeforeReady c st).message = pre ++ st) ∧
    (∀ e1 e2 : StartError, classTag e1 ≠ classTag e2 → e1.message ≠ e2.message) ∧
    (∀ m c st t,
      (StartError.failedToSpawn m).message ≠ (StartError.exitedBeforeReady c st).message ∧
      (StartError.failedToSpawn m).message ≠ (StartError.notReadyWithinTimeout t).message ∧
      (StartError.exitedBeforeReady c st).message ≠
        (StartError.notReadyWithinTimeout t).message) :=
  ⟨by simp +decide [startModel, raceResultOf, earlyExitSettle, earlyExitReject, readyOutcomeOf,
      readyResultOf, waitForReadyAux, pingModel, startEnvCrash, startEnvNeverReady, freshWorld,
      sampleOpts, startTimeoutMs, startPollMs, stringIncludes, pongToken, ReadyResult.attempt],
   start_error_classification freshWorld startEnvCrash (by decide)
    (StartError.exitedBeforeReady 1 ("bad config"))
    (by simp +decide [startModel, raceResultOf, earlyExitSettle, earlyExitReject, readyOutcomeOf,
      readyResultOf, waitForReadyAux, pingModel, startEnvCrash, startEnvNeverReady, freshWorld,
      sampleOpts, startTimeoutMs, startPollMs, stringIncludes, pongToken, ReadyResult.attempt])⟩

/-- Counterexample to C6 as stated: a child that exits before readiness
with status code 0 does not produce an exited-before-ready
classification — the failure surfaces as the timeout classification
once the deadline expires. -/
theorem exit_code_zero_classification_counterexample :
    (startModel freshWorld startEnvCleanExit (by decide)).result =
      Except.error (StartError.notReadyWithinTimeout 200) ∧
    resultIsExitedBeforeReady
      (startModel freshWorld startEnvCleanExit (by decide)).result = false := by
  refine ⟨?_, ?_⟩ <;>
    simp +decide [startModel, raceResultOf, earlyExitSettle, earlyExitReject, readyOutcomeOf,
      readyResultOf, waitForReadyAux, pingModel, startEnvCleanExit, startEnvNeverReady,
      freshWorld, sampleOpts, startTimeoutMs, startPollMs, stringIncludes, pongToken,
      resultIsExitedBeforeReady]

/-- Witness for C7 at a concrete live supervisor. -/
theorem liveness_pid_queries_witness :
    (isRunningModel liveSM = true ↔ ∃ q, liveSM.process = some q ∧ q.exitCode = none) ∧
    getPidModel liveSM = liveSM.process.bind ChildProc.pid ∧
    getPidModel (stopModel liveWorld stopEnvNoExit false).world.sm = getPidModel liveWorld.sm :=
  liveness_pid_queries liveSM liveWorld stopEnvNoExit false

/-- Counterexample to C7 as stated: with the child exited (code 0
recorded), the liveness query answers `false` yet the pid query still
returns the recorded pid — also after `stop` has returned. -/
theorem getPid_after_exit_counterexample :
    isRunningModel exitedSM = false ∧
    getPidModel exitedSM = some 42 ∧
    (stopModel liveWorld stopEnvQuickExit false).world.sm.process.bind ChildProc.exitCode =
      some 0 ∧
    getPidModel (stopModel liveWorld stopEnvQuickExit false).world.sm = some 42 :=
  ⟨rfl, rfl, rfl, rfl⟩

/-- Witness for C8: starting over a concrete stale socket file. -/
theorem stale_socket_removed_before_spawn_witness :
    staleWorld.sm.options.socketPath ∈ staleWorld.files ∧
    (startModel staleWorld startEnvOk (by decide)).trace.take 3 =
      [Action.unlinkFile staleWorld.sm.options.socketPath,
       Action.writeFile (startConfigPath staleWorld.sm.options startEnvOk.tmpDir)
         staleWorld.sm.options.config,
       Action.spawn staleWorld.sm.options.redisServerPath
         (startConfigPath staleWorld.sm.options startEnvOk.tmpDir)] :=
  ⟨by decide, stale_socket_removed_before_spawn staleWorld startEnvOk (by decide) (by decide)⟩

end FalkorDBLite
